import Mathlib

/-!
Shallow embedding of `src/main.py` (a single-file screen capture / recorder
built on mss + OpenCV).  Python floats are modelled as exact rationals;
Python strings as `String`; the OpenCV fourcc value is identified with the
four-character codec string it is built from.  Collaborator effects (the mss
handle, the VideoWriter, the preview window, file writes) are modelled as an
event trace emitted by the program, and the capture loop as a step function
on the mutable loop state (`recording`, `last_time`, `frame_count`,
`measured_fps`), driven by one `Tick` of environment input per iteration
(grabbed image, clock reading, pressed key, wall-clock timestamp).  A run of
the loop ends either at a quit key (normal quit) or when the tick stream is
cut off, which models a KeyboardInterrupt or an unexpected error aborting
the loop at an iteration boundary; in both cases control reaches the
`finally` teardown of `main.py:137-142`.
-/

namespace ScreenRec

/-- Index of the last occurrence of a character in a list, if any. -/
def lastIdxOf (c : Char) : List Char → Option Nat
  | [] => none
  | x :: xs =>
    match lastIdxOf c xs with
    | some i => some (i + 1)
    | none => if x = c then some 0 else none

/-- Model of Python `os.path.splitext(p)[1]` (posix rules): the extension is
the suffix starting at the last dot, provided that dot comes after the last
path separator and the basename has at least one earlier non-dot character;
otherwise the extension is empty. -/
def pySplitextExt (p : String) : String :=
  let l := p.toList
  let sepIdx : ℤ := match lastIdxOf '/' l with | some i => (i : ℤ) | none => -1
  let dotIdx : ℤ := match lastIdxOf '.' l with | some i => (i : ℤ) | none => -1
  if sepIdx < dotIdx ∧
      ((l.drop (sepIdx + 1).toNat).take (dotIdx - sepIdx - 1).toNat).any (fun c => c ≠ '.')
  then String.mk (l.drop dotIdx.toNat)
  else ""

/-- Python `str.lower`, character by character. -/
def strLower (s : String) : String := String.mk (s.toList.map Char.toLower)

/-- `os.path.splitext(filename)[1].lower()` as used at `main.py:39`. -/
def extLower (filename : String) : String := strLower (pySplitextExt filename)

/-- `main.py:39-45`, the extension-derived branch of codec selection:
`.mp4` and `.m4v` map to `mp4v`, `.avi` maps to `XVID`, and any other
extension falls back to `XVID`. -/
def codec_from_ext (filename : String) : String :=
  let e := extLower filename
  if e = ".mp4" ∨ e = ".m4v" then "mp4v"
  else if e = ".avi" then "XVID"
  else "XVID"

/-- `main.py:36-45`, `select_codec_by_ext`.  Python `if override:` tests
string truthiness: `None` and the empty string both fall through to the
extension-derived mapping. -/
def select_codec_by_ext (filename : String) (override : Option String) : String :=
  match override with
  | some c => if c = "" then codec_from_ext filename else c
  | none => codec_from_ext filename

/-- `main.py:117`, the exponential smoothing of the measured frame rate:
`measured_fps * 0.9 + (1.0 / dt) * 0.1 if dt > 0 else measured_fps`. -/
def updateFps (measured dt : ℚ) : ℚ :=
  if 0 < dt then measured * 0.9 + (1 / dt) * 0.1 else measured

/-- Python `int()` applied to a rational: truncation toward zero. -/
def pyInt (q : ℚ) : ℤ := if 0 ≤ q then ⌊q⌋ else ⌈q⌉

/-- `main.py:119`, the `cv2.waitKey` timeout in milliseconds:
`max(1, int(1000 / max(1, args.fps)))`. -/
def pollWaitMs (fps : ℚ) : ℤ := max 1 (pyInt (1000 / max 1 fps))

/-- Modelled from the spec (not the code): section 4.4 step 7 states the wait
is `max(1ms, 1000ms / max(1, target_fps))`, read as exact arithmetic. -/
def claimedWaitSpec (fps : ℚ) : ℚ := max 1 (1000 / max 1 fps)

/-- A capture rectangle or a display geometry: left, top, width, height. -/
structure Region where
  left : ℤ
  top : ℤ
  width : ℤ
  height : ℤ
deriving DecidableEq

/-- A wall-clock timestamp at second resolution, as consumed by
`datetime.now().strftime` in `timestamped_name`. -/
structure Stamp where
  year : ℕ
  month : ℕ
  day : ℕ
  hour : ℕ
  minute : ℕ
  second : ℕ
deriving DecidableEq

/-- Two-digit zero padding, as produced by strftime fields like `%m`. -/
def pad2 (n : ℕ) : String := if n < 10 then "0" ++ toString n else toString n

/-- Four-digit zero padding, as produced by strftime `%Y`. -/
def pad4 (n : ℕ) : String :=
  if n < 10 then "000" ++ toString n
  else if n < 100 then "00" ++ toString n
  else if n < 1000 then "0" ++ toString n
  else toString n

/-- `datetime.now().strftime("%Y%m%d_%H%M%S")` for a given timestamp. -/
def fmtStamp (st : Stamp) : String :=
  pad4 st.year ++ pad2 st.month ++ pad2 st.day ++ "_" ++
    pad2 st.hour ++ pad2 st.minute ++ pad2 st.second

/-- `main.py:47-48`, `timestamped_name(prefix, ext)` at timestamp `st`. -/
def timestamped_name (st : Stamp) ( pfx ext0 : String) : String :=
  pfx ++ "_" ++ fmtStamp st ++ ext0

/-- The parsed command line of `main.py:25-34`. -/
structure Args where
  outfile : String
  fps : ℚ
  monitor : ℤ
  region : Option Region
  codec : Option String

/-- The overlaid frame of one iteration (`main.py:93-103`): the grabbed,
BGRA-to-BGR-converted pixel content (abstracted to a token) plus the overlay
state drawn onto it (recording indicator and displayed fps value). -/
structure Frame where
  raw : ℕ
  recFlag : Bool
  fpsShown : ℚ
deriving DecidableEq

/-- Observable collaborator effects of a run. -/
inductive Ev where
  | openSCT
  | printInvalid
  | openWriter (ok : Bool)
  | createWindow
  | preview (f : Frame)
  | sinkWrite (f : Frame)
  | snapshot (nm : String) (f : Frame)
  | closeWriter
  | destroyWindows
  | closeSCT
deriving DecidableEq

/-- Environment input consumed by one loop iteration: the grabbed image
token, the `time.time()` reading at `main.py:114`, the key returned by
`cv2.waitKey` (already masked to 0..255; 255 when no key is pending), and
the wall-clock timestamp used if a snapshot is taken. -/
structure Tick where
  img : ℕ
  now : ℚ
  key : ℕ
  stamp : Stamp

/-- The mutable loop variables of `main.py:80-83`. -/
structure LoopState where
  recording : Bool
  lastTime : ℚ
  frameCount : ℕ
  measuredFps : ℚ
deriving DecidableEq

/-- `main.py:55-67`: an explicit `--region` is used verbatim; otherwise the
monitor index is validated against the display list (`none` models the
invalid-index early return). -/
def resolveRegion (regionArg : Option Region) (monitor : ℤ)
    (monitors : List Region) : Option Region :=
  match regionArg with
  | some r => some r
  | none =>
    if monitor < 0 ∨ (monitors.length : ℤ) ≤ monitor then none
    else monitors[monitor.toNat]?

/-- `main.py:80-83`: recording off, `last_time` from the clock,
`frame_count = 0`, `measured_fps = 0.0`. -/
def initLoopState (t0 : ℚ) : LoopState :=
  { recording := false, lastTime := t0, frameCount := 0, measuredFps := 0 }

/-- The frame built and overlaid in one iteration (`main.py:93-103`). -/
def frameOf (s : LoopState) (t : Tick) : Frame :=
  { raw := t.img, recFlag := s.recording, fpsShown := s.measuredFps }

/-- Events of one iteration before command dispatch: the preview always
receives the frame (`main.py:106`); the sink receives it exactly when
recording is on and the writer is open (`main.py:109-110`). -/
def iterEvsPre (wo : Bool) (s : LoopState) (t : Tick) : List Ev :=
  if s.recording && wo then [Ev.preview (frameOf s t), Ev.sinkWrite (frameOf s t)]
  else [Ev.preview (frameOf s t)]

/-- Loop state after the write and rate-update steps (`main.py:109-117`)
but before command dispatch. -/
def iterStatePre (wo : Bool) (s : LoopState) (t : Tick) : LoopState :=
  { recording := s.recording
    lastTime := t.now
    frameCount := if s.recording && wo then s.frameCount + 1 else s.frameCount
    measuredFps := updateFps s.measuredFps (t.now - s.lastTime) }

/-- Filename used by the snapshot command (`main.py:127`). -/
def snapName (t : Tick) : String := timestamped_name t.stamp "screenshot" ".png"

/-- State after command dispatch (`main.py:120-133`): only the toggle key
(ord r = 114) changes anything beyond `iterStatePre`. -/
def iterNext (wo : Bool) (s : LoopState) (t : Tick) : LoopState :=
  if t.key = 114 then { iterStatePre wo s t with recording := !s.recording }
  else iterStatePre wo s t

/-- Events of one full iteration: the snapshot key (ord s = 115) adds an
image-file write of the already-overlaid frame (`main.py:126-129`). -/
def iterEvs (wo : Bool) (s : LoopState) (t : Tick) : List Ev :=
  if t.key = 114 then iterEvsPre wo s t
  else if t.key = 115 then iterEvsPre wo s t ++ [Ev.snapshot (snapName t) (frameOf s t)]
  else iterEvsPre wo s t

/-- Whether the dispatched key quits the loop (`main.py:130-132`):
ord q = 113 or ESC = 27, and only when neither toggle nor snapshot matched. -/
def iterQuit (t : Tick) : Bool :=
  if t.key = 114 then false
  else if t.key = 115 then false
  else decide (t.key = 113 ∨ t.key = 27)

/-- One iteration of the while loop (`main.py:91-133`): next state, emitted
events, and whether the loop breaks. -/
def loopIter (wo : Bool) (s : LoopState) (t : Tick) : LoopState × List Ev × Bool :=
  (iterNext wo s t, iterEvs wo s t, iterQuit t)

/-- The capture loop run over a stream of environment ticks.  An exhausted
stream models the loop being aborted (KeyboardInterrupt or unexpected error)
at an iteration boundary. -/
def runLoop (wo : Bool) (s : LoopState) : List Tick → LoopState × List Ev
  | [] => (s, [])
  | t :: ts =>
    if iterQuit t then (iterNext wo s t, iterEvs wo s t)
    else ((runLoop wo (iterNext wo s t) ts).1,
          iterEvs wo s t ++ (runLoop wo (iterNext wo s t) ts).2)

/-- The `finally` block of `main.py:137-142`: release the writer when it
exists, destroy the preview windows, close the mss handle. -/
def teardown (wo : Bool) : List Ev :=
  (if wo then [Ev.closeWriter] else []) ++ [Ev.destroyWindows, Ev.closeSCT]

/-- The effect trace of `main` (`main.py:50-142`): the mss handle is opened
first; an invalid monitor index is reported and the function returns before
any further effect; otherwise the writer construction is attempted (`wo`
tells whether the encoder accepted it; on failure `writer` is set to `None`),
the preview window is created, the loop runs, and the teardown runs on every
way out of the loop. -/
def mainRun (args : Args) (monitors : List Region) (wo : Bool) (t0 : ℚ)
    (ticks : List Tick) : List Ev :=
  Ev.openSCT ::
    match resolveRegion args.region args.monitor monitors with
    | none => [Ev.printInvalid]
    | some _ =>
      Ev.openWriter wo :: Ev.createWindow ::
        ((runLoop wo (initLoopState t0) ticks).2 ++ teardown wo)

/-- `cv2.imwrite` over a directory modelled as a partial map from filename
to content: an existing file of the same name is silently overwritten. -/
def imwrite (fs : String → Option Frame) (nm : String) (f : Frame) :
    String → Option Frame :=
  fun n => if n = nm then some f else fs n

/-- Recognizer for sink-write events. -/
def isSinkWrite : Ev → Bool
  | .sinkWrite _ => true
  | _ => false

/-- Recognizer for the writer-release event. -/
def isCloseWriter : Ev → Bool
  | .closeWriter => true
  | _ => false

/-- Recognizer for the window-teardown event. -/
def isDestroyWindows : Ev → Bool
  | .destroyWindows => true
  | _ => false

/-- Recognizer for the mss-handle-close event. -/
def isCloseSCT : Ev → Bool
  | .closeSCT => true
  | _ => false

/-- Events that the loop body itself can emit. -/
def isLoopEv : Ev → Bool
  | .preview _ => true
  | .sinkWrite _ => true
  | .snapshot _ _ => true
  | _ => false

end ScreenRec

namespace ScreenRec

lemma pyInt_of_nonneg {q : ℚ} (h : 0 ≤ q) : pyInt q = ⌊q⌋ := if_pos h

lemma pollWaitMs_eq_floor (fps : ℚ) :
    pollWaitMs fps = max 1 ⌊(1000 : ℚ) / max 1 fps⌋ := by
  unfold pollWaitMs
  rw [pyInt_of_nonneg]
  exact div_nonneg (by norm_num) (le_trans zero_le_one (le_max_left _ _))

lemma pollWaitMs_of_moderate {fps : ℚ} (h1 : 1 ≤ fps) (h2 : fps ≤ 1000) :
    pollWaitMs fps = ⌊(1000 : ℚ) / fps⌋ := by
  rw [pollWaitMs_eq_floor, max_eq_right h1, max_eq_right]
  exact Int.le_floor.mpr ((one_le_div (lt_of_lt_of_le zero_lt_one h1)).mpr h2)

lemma mem_iterEvsPre {wo : Bool} {s : LoopState} {t : Tick} {e : Ev}
    (h : e ∈ iterEvsPre wo s t) :
    e = Ev.preview (frameOf s t) ∨ e = Ev.sinkWrite (frameOf s t) := by
  unfold iterEvsPre at h
  split at h <;> simp_all

lemma mem_iterEvs {wo : Bool} {s : LoopState} {t : Tick} {e : Ev}
    (h : e ∈ iterEvs wo s t) :
    e = Ev.preview (frameOf s t) ∨ e = Ev.sinkWrite (frameOf s t) ∨
      e = Ev.snapshot (snapName t) (frameOf s t) := by
  unfold iterEvs at h
  split at h
  · exact (mem_iterEvsPre h).imp id Or.inl
  split at h
  · rcases List.mem_append.mp h with h | h
    · exact (mem_iterEvsPre h).imp id Or.inl
    · simp_all
  · exact (mem_iterEvsPre h).imp id Or.inl

lemma isLoopEv_of_mem_runLoop {wo : Bool} {e : Ev} :
    ∀ {ticks : List Tick} {s : LoopState},
      e ∈ (runLoop wo s ticks).2 → isLoopEv e = true
  | [], _, h => by simp [runLoop] at h
  | t :: ts, s, h => by
    rw [runLoop] at h
    split at h
    · rcases mem_iterEvs h with h | h | h <;> subst h <;> rfl
    · rcases List.mem_append.mp h with h | h
      · rcases mem_iterEvs h with h | h | h <;> subst h <;> rfl
      · exact isLoopEv_of_mem_runLoop h

lemma countP_runLoop_eq_zero {wo : Bool} {s : LoopState} {ticks : List Tick}
    (p : Ev → Bool) (hp : ∀ e, isLoopEv e = true → p e = false) :
    ((runLoop wo s ticks).2).countP p = 0 := by
  rw [List.countP_eq_zero]
  intro e he
  simp [hp e (isLoopEv_of_mem_runLoop he)]

lemma countP_sink_iterEvsPre (wo : Bool) (s : LoopState) (t : Tick) :
    (iterEvsPre wo s t).countP isSinkWrite = if s.recording && wo then 1 else 0 := by
  unfold iterEvsPre
  split <;> simp [List.countP_cons, isSinkWrite]

lemma countP_sink_iterEvs (wo : Bool) (s : LoopState) (t : Tick) :
    (iterEvs wo s t).countP isSinkWrite = if s.recording && wo then 1 else 0 := by
  unfold iterEvs
  split
  · exact countP_sink_iterEvsPre wo s t
  split
  · rw [List.countP_append, countP_sink_iterEvsPre]
    simp [List.countP_cons, isSinkWrite]
  · exact countP_sink_iterEvsPre wo s t

lemma frameCount_iterNext (wo : Bool) (s : LoopState) (t : Tick) :
    (iterNext wo s t).frameCount =
      s.frameCount + (if s.recording && wo then 1 else 0) := by
  unfold iterNext iterStatePre
  split <;> split <;> simp

lemma frameCount_runLoop (wo : Bool) :
    ∀ (ticks : List Tick) (s : LoopState),
      (runLoop wo s ticks).1.frameCount =
        s.frameCount + ((runLoop wo s ticks).2).countP isSinkWrite
  | [], s => by simp [runLoop]
  | t :: ts, s => by
    rw [runLoop]
    split
    · rw [frameCount_iterNext, countP_sink_iterEvs]
    · simp only [List.countP_append, countP_sink_iterEvs,
        frameCount_runLoop wo ts (iterNext wo s t), frameCount_iterNext]
      omega

lemma sink_mem_iterEvsPre_iff (wo : Bool) (s : LoopState) (t : Tick) :
    (∃ f, Ev.sinkWrite f ∈ iterEvsPre wo s t) ↔ (s.recording = true ∧ wo = true) := by
  unfold iterEvsPre
  by_cases hw : (s.recording && wo) = true
  · rw [if_pos hw]
    rw [Bool.and_eq_true] at hw
    simp [hw]
  · rw [if_neg hw]
    rw [Bool.and_eq_true] at hw
    simp [hw]

lemma sink_mem_iterEvs_iff (wo : Bool) (s : LoopState) (t : Tick) :
    (∃ f, Ev.sinkWrite f ∈ iterEvs wo s t) ↔ (s.recording = true ∧ wo = true) := by
  unfold iterEvs
  split
  · exact sink_mem_iterEvsPre_iff wo s t
  split
  · rw [← sink_mem_iterEvsPre_iff wo s t]
    constructor
    · rintro ⟨f, hf⟩
      rcases List.mem_append.mp hf with h | h
      · exact ⟨f, h⟩
      · simp_all
    · rintro ⟨f, hf⟩
      exact ⟨f, List.mem_append.mpr (Or.inl hf)⟩
  · exact sink_mem_iterEvsPre_iff wo s t

lemma sinkWrite_not_mem_runLoop_closed :
    ∀ (ticks : List Tick) (s : LoopState) (f : Frame),
      Ev.sinkWrite f ∉ (runLoop false s ticks).2
  | [], _, _ => by simp [runLoop]
  | t :: ts, s, f => by
    rw [runLoop]
    split
    · intro h
      have := (sink_mem_iterEvs_iff false s t).mp ⟨f, h⟩
      exact Bool.false_ne_true this.2
    · intro h
      rcases List.mem_append.mp h with h | h
      · have := (sink_mem_iterEvs_iff false s t).mp ⟨f, h⟩
        exact Bool.false_ne_true this.2
      · exact sinkWrite_not_mem_runLoop_closed ts _ f h

lemma preview_mem_iterEvsPre (wo : Bool) (s : LoopState) (t : Tick) :
    Ev.preview (frameOf s t) ∈ iterEvsPre wo s t := by
  unfold iterEvsPre
  split <;> simp

lemma preview_mem_iterEvs (wo : Bool) (s : LoopState) (t : Tick) :
    Ev.preview (frameOf s t) ∈ iterEvs wo s t := by
  unfold iterEvs
  split
  · exact preview_mem_iterEvsPre wo s t
  split
  · exact List.mem_append.mpr (Or.inl (preview_mem_iterEvsPre wo s t))
  · exact preview_mem_iterEvsPre wo s t

lemma recording_iterNext_toggle {wo : Bool} {s : LoopState} {t : Tick}
    (h : t.key = 114) : (iterNext wo s t).recording = !s.recording := by
  unfold iterNext
  rw [if_pos h]

lemma recording_iterNext_other {wo : Bool} {s : LoopState} {t : Tick}
    (h : ¬t.key = 114) : (iterNext wo s t).recording = s.recording := by
  unfold iterNext
  rw [if_neg h]
  rfl

end ScreenRec

namespace ScreenRec

/-- Claim C1: a frame is pushed to the FrameSink in an iteration exactly when
recording is on and the writer is open; with an unopened writer the toggle
key still flips the recording state, no frame ever reaches the encoder over
any run of the loop, and every iteration still pushes its overlaid frame to
the preview surface. -/
theorem sink_write_gated_by_recording_and_open :
    ∀ (wo : Bool) (s : LoopState) (t : Tick) (ticks : List Tick),
      ((∃ f, Ev.sinkWrite f ∈ (loopIter wo s t).2.1) ↔
        (s.recording = true ∧ wo = true)) ∧
      (∀ f, Ev.sinkWrite f ∉ (runLoop false s ticks).2) ∧
      (t.key = 114 → (loopIter wo s t).1.recording = !s.recording) ∧
      Ev.preview (frameOf s t) ∈ (loopIter wo s t).2.1 := by
  intro wo s t ticks
  exact ⟨sink_mem_iterEvs_iff wo s t,
    fun f => sinkWrite_not_mem_runLoop_closed ticks s f,
    fun h => recording_iterNext_toggle h,
    preview_mem_iterEvs wo s t⟩

/-- Witness for C1 at concrete inputs: with the sink unopened and recording
on, the toggle key flips recording off and no sink write is emitted. -/
theorem sink_write_gated_witness :
    (loopIter false ⟨true, 0, 0, 0⟩ ⟨7, 1, 114, ⟨2026, 10, 12, 0, 0, 0⟩⟩).1.recording
        = false ∧
    Ev.sinkWrite ⟨7, true, 0⟩ ∉
      (runLoop false ⟨true, 0, 0, 0⟩ [⟨7, 1, 114, ⟨2026, 10, 12, 0, 0, 0⟩⟩]).2 := by
  refine ⟨?_, ?_⟩
  · have h := (sink_write_gated_by_recording_and_open false ⟨true, 0, 0, 0⟩
      ⟨7, 1, 114, ⟨2026, 10, 12, 0, 0, 0⟩⟩ []).2.2.1 rfl
    simpa using h
  · exact (sink_write_gated_by_recording_and_open false ⟨true, 0, 0, 0⟩
      ⟨7, 1, 114, ⟨2026, 10, 12, 0, 0, 0⟩⟩ [⟨7, 1, 114, ⟨2026, 10, 12, 0, 0, 0⟩⟩]).2.1 _

/-- Claim C2: on every termination path of the capture loop (normal quit,
interrupt, or error, the latter two modelled as the tick stream being cut
off), the writer is released exactly once when it was ever open and never
when it was not, the preview windows are destroyed, the mss handle is
closed, and these teardown events form the tail of the run. -/
theorem sink_closed_once_on_every_exit :
    ∀ (args : Args) (monitors : List Region) (wo : Bool) (t0 : ℚ)
      (ticks : List Tick) (r : Region),
      resolveRegion args.region args.monitor monitors = some r →
      ((mainRun args monitors wo t0 ticks).countP isCloseWriter
          = if wo then 1 else 0) ∧
      ((mainRun args monitors wo t0 ticks).countP isDestroyWindows = 1) ∧
      ((mainRun args monitors wo t0 ticks).countP isCloseSCT = 1) ∧
      ∃ pre, mainRun args monitors wo t0 ticks = pre ++ teardown wo := by
  intro args monitors wo t0 ticks r hres
  have hcw : ((runLoop wo (initLoopState t0) ticks).2).countP isCloseWriter = 0 :=
    countP_runLoop_eq_zero _ (by intro e he; cases e <;> simp_all [isLoopEv, isCloseWriter])
  have hdw : ((runLoop wo (initLoopState t0) ticks).2).countP isDestroyWindows = 0 :=
    countP_runLoop_eq_zero _ (by intro e he; cases e <;> simp_all [isLoopEv, isDestroyWindows])
  have hcs : ((runLoop wo (initLoopState t0) ticks).2).countP isCloseSCT = 0 :=
    countP_runLoop_eq_zero _ (by intro e he; cases e <;> simp_all [isLoopEv, isCloseSCT])
  unfold mainRun
  rw [hres]
  refine ⟨?_, ?_, ?_, ?_⟩
  · cases wo <;>
      simp [teardown, List.countP_cons, List.countP_append, hcw,
        isCloseWriter]
  · cases wo <;>
      simp [teardown, List.countP_cons, List.countP_append, hdw,
        isDestroyWindows]
  · cases wo <;>
      simp [teardown, List.countP_cons, List.countP_append, hcs,
        isCloseSCT]
  · exact ⟨Ev.openSCT :: Ev.openWriter wo :: Ev.createWindow ::
      (runLoop wo (initLoopState t0) ticks).2, by simp⟩

/-- Witness for C2 at concrete inputs: explicit region, open writer, one
quit tick; the writer is released once, the windows and handle torn down. -/
theorem sink_closed_once_witness :
    ((mainRun ⟨"capture.mp4", 20, 1, some ⟨0, 0, 640, 480⟩, none⟩ [] true 0
        [⟨1, 1, 113, ⟨2026, 10, 12, 0, 0, 0⟩⟩]).countP isCloseWriter = 1) ∧
    ((mainRun ⟨"capture.mp4", 20, 1, some ⟨0, 0, 640, 480⟩, none⟩ [] true 0
        [⟨1, 1, 113, ⟨2026, 10, 12, 0, 0, 0⟩⟩]).countP isCloseSCT = 1) := by
  have h := sink_closed_once_on_every_exit
    ⟨"capture.mp4", 20, 1, some ⟨0, 0, 640, 480⟩, none⟩ [] true 0
    [⟨1, 1, 113, ⟨2026, 10, 12, 0, 0, 0⟩⟩] ⟨0, 0, 640, 480⟩ rfl
  exact ⟨by simpa using h.1, h.2.2.1⟩

/-- Claim C3: the rate estimator leaves the estimate unchanged when the
elapsed time is nonpositive, applies the smoothing law
`estimate * 0.9 + (1/dt) * 0.1` when `dt > 0`, and the estimate is 0 before
the first update. -/
theorem rate_estimator_update_law :
    ∀ (est dt t0 : ℚ),
      (dt ≤ 0 → updateFps est dt = est) ∧
      (0 < dt → updateFps est dt = est * 0.9 + (1 / dt) * 0.1) ∧
      (initLoopState t0).measuredFps = 0 := by
  intro est dt t0
  refine ⟨fun h => ?_, fun h => ?_, rfl⟩
  · unfold updateFps
    rw [if_neg (not_lt.mpr h)]
  · unfold updateFps
    rw [if_pos h]

/-- Witness for C3 at concrete inputs: a zero elapsed time leaves the
estimate unchanged, a positive one applies the smoothing law. -/
theorem rate_estimator_update_law_witness :
    updateFps 5 0 = 5 ∧
    updateFps 5 (1 / 2) = 5 * 0.9 + (1 / (1 / 2)) * 0.1 ∧
    (initLoopState 3).measuredFps = 0 :=
  ⟨(rate_estimator_update_law 5 0 3).1 le_rfl,
   (rate_estimator_update_law 5 (1 / 2) 3).2.1 (by norm_num),
   (rate_estimator_update_law 5 0 3).2.2⟩

/-- Counterexample for C4: the code truncates the quotient to whole
milliseconds, so at `target_fps = 3` the wait is 333 ms, not the exact
`1000/3` ms the claimed formula gives; and at `target_fps = 2000` (which is
`>= 1`) the wait is 1 ms, not `1000/2000` ms. -/
theorem poll_wait_exact_formula_fails :
    ((pollWaitMs 3 : ℚ) ≠ claimedWaitSpec 3) ∧
    ((1 : ℚ) ≤ 2000 ∧ (pollWaitMs 2000 : ℚ) ≠ 1000 / 2000) := by
  have h3 : pollWaitMs 3 = 333 := by
    rw [pollWaitMs_of_moderate (by norm_num) (by norm_num), Int.floor_eq_iff]
    norm_num
  have h2000 : pollWaitMs 2000 = 1 := by
    rw [pollWaitMs_eq_floor, max_eq_right (by norm_num : (1:ℚ) ≤ 2000)]
    have : ⌊(1000 : ℚ) / 2000⌋ = 0 := by
      rw [Int.floor_eq_iff]
      norm_num
    rw [this]
    rfl
  refine ⟨?_, by norm_num, ?_⟩
  · rw [h3]
    unfold claimedWaitSpec
    rw [max_eq_right (by norm_num : (1:ℚ) ≤ 3), max_eq_right (by norm_num : (1:ℚ) ≤ 1000 / 3)]
    norm_num
  · rw [h2000]
    norm_num

/-- Claim C4 as amended: the wait equals
`max(1, floor(1000 / max(1, target_fps)))` milliseconds; it is at least 1 ms
for every target_fps, and equals `floor(1000 / target_fps)` when
`1 <= target_fps <= 1000` (above 1000 fps the 1 ms clamp takes over, and the
quotient is truncated rather than exact). -/
theorem poll_wait_amended :
    ∀ fps : ℚ,
      pollWaitMs fps = max 1 ⌊(1000 : ℚ) / max 1 fps⌋ ∧
      1 ≤ pollWaitMs fps ∧
      (1 ≤ fps → fps ≤ 1000 → pollWaitMs fps = ⌊(1000 : ℚ) / fps⌋) := by
  intro fps
  exact ⟨pollWaitMs_eq_floor fps, le_max_left _ _,
    fun h1 h2 => pollWaitMs_of_moderate h1 h2⟩

/-- Witness for C4 (amended) at a concrete input: at the default 20 fps the
wait is exactly `floor(1000/20) = 50` ms. -/
theorem poll_wait_amended_witness :
    pollWaitMs 20 = ⌊(1000 : ℚ) / 20⌋ ∧ 1 ≤ pollWaitMs 20 :=
  ⟨(poll_wait_amended 20).2.2 (by norm_num) (by norm_num),
   (poll_wait_amended 20).2.1⟩

end ScreenRec

namespace ScreenRec

/-- Counterexample for C5: at the out-of-range monitor index 5 with two
available displays, the run does report the invalid index and stops before
the loop, but a resource has already been opened: the display-capture (mss)
handle is created at `main.py:52`, before the index check, and the trace
shows it is not closed on this path either. -/
theorem invalid_monitor_still_opens_capture :
    resolveRegion none 5 [⟨0, 0, 1920, 1080⟩, ⟨1920, 0, 1920, 1080⟩] = none ∧
    Ev.openSCT ∈ mainRun ⟨"capture.mp4", 20, 5, none, none⟩
      [⟨0, 0, 1920, 1080⟩, ⟨1920, 0, 1920, 1080⟩] false 0 [] ∧
    mainRun ⟨"capture.mp4", 20, 5, none, none⟩
      [⟨0, 0, 1920, 1080⟩, ⟨1920, 0, 1920, 1080⟩] false 0 []
      = [Ev.openSCT, Ev.printInvalid] :=
  ⟨rfl, by simp [mainRun, resolveRegion], rfl⟩

/-- Claim C5 as amended: with no explicit region, every in-range monitor
index resolves to that display's geometry; every out-of-range index makes
resolution fail, and the run then reports the invalid index and returns
without entering the capture loop and without opening the video sink or the
preview window — but the display-capture handle has already been opened (it
is needed to enumerate the displays) and is not closed on this path. -/
theorem monitor_index_resolution :
    ∀ (args : Args) (monitors : List Region) (wo : Bool) (t0 : ℚ)
      (ticks : List Tick),
      (∀ (i : ℤ) (d : Region), 0 ≤ i → i < (monitors.length : ℤ) →
        monitors[i.toNat]? = some d → resolveRegion none i monitors = some d) ∧
      (∀ i : ℤ, i < 0 ∨ (monitors.length : ℤ) ≤ i →
        resolveRegion none i monitors = none) ∧
      (args.region = none →
        (args.monitor < 0 ∨ (monitors.length : ℤ) ≤ args.monitor) →
        mainRun args monitors wo t0 ticks = [Ev.openSCT, Ev.printInvalid]) := by
  intro args monitors wo t0 ticks
  have hnone : ∀ i : ℤ, i < 0 ∨ (monitors.length : ℤ) ≤ i →
      resolveRegion none i monitors = none := by
    intro i h
    unfold resolveRegion
    rw [if_pos h]
  refine ⟨?_, hnone, ?_⟩
  · intro i d h0 h1 hd
    unfold resolveRegion
    rw [if_neg (by push_neg; exact ⟨h0, h1⟩)]
    exact hd
  · intro hr hm
    unfold mainRun
    rw [hr, hnone args.monitor hm]

/-- Witness for C5 (amended) at concrete inputs: index 1 of a two-display
list resolves to the second display; index 7 with one display aborts the run
right after the capture handle is opened. -/
theorem monitor_index_resolution_witness :
    resolveRegion none 1 [⟨0, 0, 3840, 1080⟩, ⟨0, 0, 1920, 1080⟩]
        = some ⟨0, 0, 1920, 1080⟩ ∧
    mainRun ⟨"capture.mp4", 20, 7, none, none⟩ [⟨0, 0, 3840, 1080⟩] true 0 []
        = [Ev.openSCT, Ev.printInvalid] :=
  ⟨(monitor_index_resolution ⟨"capture.mp4", 20, 7, none, none⟩
      [⟨0, 0, 3840, 1080⟩, ⟨0, 0, 1920, 1080⟩] true 0 []).1 1 ⟨0, 0, 1920, 1080⟩
      (by norm_num) (by norm_num) rfl,
   (monitor_index_resolution ⟨"capture.mp4", 20, 7, none, none⟩
      [⟨0, 0, 3840, 1080⟩] true 0 []).2.2 rfl (Or.inr (by norm_num))⟩

/-- Counterexample for C6: an explicitly supplied empty-string codec
override is not used verbatim — Python `if override:` treats it as falsy, so
the extension fallback (`XVID`) is returned instead of the supplied value. -/
theorem empty_codec_override_not_verbatim :
    select_codec_by_ext "out.xyz" (some "") = "XVID" ∧ ("XVID" : String) ≠ "" :=
  ⟨rfl, by decide⟩

/-- Claim C6 as amended: codec selection is total; a supplied non-empty
codec override is used verbatim (an empty string is treated as absent, per
Python truthiness); otherwise an MP4-family extension maps to `mp4v` (not
the AVI fallback), `.avi` maps to `XVID`, and every other extension falls
back to `XVID` rather than failing. -/
theorem codec_selection_total :
    ∀ (fn : String) (ov : Option String) (c : String),
      (ov = some c → c ≠ "" → select_codec_by_ext fn ov = c) ∧
      ((ov = none ∨ ov = some "") →
        ((extLower fn = ".mp4" ∨ extLower fn = ".m4v") →
          select_codec_by_ext fn ov = "mp4v") ∧
        (extLower fn = ".avi" → select_codec_by_ext fn ov = "XVID") ∧
        (extLower fn ≠ ".mp4" → extLower fn ≠ ".m4v" → extLower fn ≠ ".avi" →
          select_codec_by_ext fn ov = "XVID")) := by
  intro fn ov c
  constructor
  · intro hov hc
    subst hov
    show (if c = "" then codec_from_ext fn else c) = c
    rw [if_neg hc]
  · intro hov
    have hsel : select_codec_by_ext fn ov = codec_from_ext fn := by
      rcases hov with h | h <;> subst h <;> simp [select_codec_by_ext]
    rw [hsel]
    unfold codec_from_ext
    refine ⟨fun h => ?_, fun h => ?_, fun h1 h2 h3 => ?_⟩
    · rw [if_pos h]
    · rw [if_neg (by rintro (hx | hx) <;> simp_all), if_pos h]
    · rw [if_neg (by rintro (hx | hx) <;> simp_all), if_neg h3]

/-- Witness for C6 (amended) at concrete paths: a `.mp4` path selects the
MP4-family codec, `.avi` the AVI codec, a garbage extension the fallback,
and a non-empty override is used verbatim. -/
theorem codec_selection_total_witness :
    select_codec_by_ext "capture.mp4" none = "mp4v" ∧
    select_codec_by_ext "demo.avi" none = "XVID" ∧
    select_codec_by_ext "weird.xyz" none = "XVID" ∧
    select_codec_by_ext "weird.xyz" (some "MJPG") = "MJPG" :=
  ⟨((codec_selection_total "capture.mp4" none "").2 (Or.inl rfl)).1
      (Or.inl (by decide)),
   ((codec_selection_total "demo.avi" none "").2 (Or.inl rfl)).2.1 (by decide),
   ((codec_selection_total "weird.xyz" none "").2 (Or.inl rfl)).2.2
      (by decide) (by decide) (by decide),
   (codec_selection_total "weird.xyz" (some "MJPG") "MJPG").1 rfl (by decide)⟩

/-- Claim C7: the toggle-record key is an involution on the recording state:
dispatching it in two successive iterations returns the recording flag to
its original value, whatever the rest of the state and inputs do. -/
theorem toggle_record_involution :
    ∀ (wo : Bool) (s : LoopState) (t₁ t₂ : Tick),
      t₁.key = 114 → t₂.key = 114 →
      ((loopIter wo (loopIter wo s t₁).1 t₂).1).recording = s.recording := by
  intro wo s t₁ t₂ h1 h2
  show (iterNext wo (iterNext wo s t₁) t₂).recording = s.recording
  rw [recording_iterNext_toggle h2, recording_iterNext_toggle h1, Bool.not_not]

/-- Witness for C7 at concrete inputs: toggling twice from idle ends idle. -/
theorem toggle_record_involution_witness :
    ((loopIter true (loopIter true ⟨false, 0, 0, 0⟩
        ⟨1, 1, 114, ⟨2026, 10, 12, 0, 0, 0⟩⟩).1
        ⟨2, 2, 114, ⟨2026, 10, 12, 0, 0, 1⟩⟩).1).recording = false :=
  toggle_record_involution true ⟨false, 0, 0, 0⟩
    ⟨1, 1, 114, ⟨2026, 10, 12, 0, 0, 0⟩⟩ ⟨2, 2, 114, ⟨2026, 10, 12, 0, 0, 1⟩⟩
    rfl rfl

end ScreenRec

namespace ScreenRec

/-- Claim C8: relative to an iteration in which no command key is pending
(key 255), the snapshot key changes nothing in the loop state — recording,
frame counter, writer — and does not quit; its only extra effect is one
image-file write of the already-overlaid frame (exactly the frame pushed to
the preview) under the name built from the fixed prefix `screenshot`, the
second-resolution timestamp, and the fixed extension `.png`; and a second
write under the same second-resolution timestamp silently overwrites. -/
theorem snapshot_command_pure_effect :
    ∀ (wo : Bool) (s : LoopState) (t : Tick) (fs : String → Option Frame)
      (f₁ f₂ : Frame),
      t.key = 115 →
      ((loopIter wo s t).1 = (loopIter wo s ⟨t.img, t.now, 255, t.stamp⟩).1) ∧
      ((loopIter wo s t).2.1 =
        (loopIter wo s ⟨t.img, t.now, 255, t.stamp⟩).2.1 ++
          [Ev.snapshot (snapName t) (frameOf s t)]) ∧
      ((loopIter wo s t).2.2 = false) ∧
      ((loopIter wo s t).1.recording = s.recording) ∧
      (Ev.preview (frameOf s t) ∈ (loopIter wo s t).2.1) ∧
      (snapName t = "screenshot" ++ "_" ++ fmtStamp t.stamp ++ ".png") ∧
      (imwrite (imwrite fs (snapName t) f₁) (snapName t) f₂ (snapName t)
          = some f₂) := by
  intro wo s t fs f₁ f₂ hk
  have h114 : ¬t.key = 114 := by rw [hk]; decide
  refine ⟨?_, ?_, ?_, ?_, preview_mem_iterEvs wo s t, rfl, by simp [imwrite]⟩
  · show iterNext wo s t = iterNext wo s ⟨t.img, t.now, 255, t.stamp⟩
    unfold iterNext
    rw [if_neg h114, if_neg (by simp)]
    rfl
  · show iterEvs wo s t = iterEvs wo s ⟨t.img, t.now, 255, t.stamp⟩ ++ _
    unfold iterEvs
    rw [if_neg h114, if_pos hk, if_neg (by simp), if_neg (by simp)]
    rfl
  · show iterQuit t = false
    unfold iterQuit
    rw [if_neg h114, if_pos hk]
  · exact recording_iterNext_other h114

/-- Witness for C8 at concrete inputs: a snapshot taken while recording with
an open writer does not quit, leaves recording on, and the same-second
double write keeps only the second image. -/
theorem snapshot_command_pure_effect_witness :
    ((loopIter true ⟨true, 0, 3, 1/2⟩ ⟨9, 1, 115, ⟨2026, 10, 12, 3, 4, 5⟩⟩).2.2
        = false) ∧
    ((loopIter true ⟨true, 0, 3, 1/2⟩ ⟨9, 1, 115, ⟨2026, 10, 12, 3, 4, 5⟩⟩).1.recording
        = true) ∧
    (imwrite (imwrite (fun _ => none)
        (snapName ⟨9, 1, 115, ⟨2026, 10, 12, 3, 4, 5⟩⟩) ⟨9, true, 1/2⟩)
        (snapName ⟨9, 1, 115, ⟨2026, 10, 12, 3, 4, 5⟩⟩) ⟨10, true, 1/2⟩
        (snapName ⟨9, 1, 115, ⟨2026, 10, 12, 3, 4, 5⟩⟩) = some ⟨10, true, 1/2⟩) := by
  have h := snapshot_command_pure_effect true ⟨true, 0, 3, 1/2⟩
    ⟨9, 1, 115, ⟨2026, 10, 12, 3, 4, 5⟩⟩ (fun _ => none)
    ⟨9, true, 1/2⟩ ⟨10, true, 1/2⟩ rfl
  exact ⟨h.2.2.1, h.2.2.2.1, h.2.2.2.2.2.2⟩

/-- Claim C9: an explicitly supplied region is returned verbatim as the
capture region, for every monitor index and every display list, with no
bounds check against the displays. -/
theorem explicit_region_returned_verbatim :
    ∀ (r : Region) (monitor : ℤ) (monitors : List Region),
      resolveRegion (some r) monitor monitors = some r :=
  fun _ _ _ => rfl

/-- Claim C10: the frame counter counts exactly the sink writes: it starts
at 0, a single iteration adds to it exactly the number of sink-write events
that iteration emits, and over any run of the loop the final counter equals
the initial counter plus the number of sink writes in the whole trace (so
preview, snapshot, toggle and rate update leave it unchanged). -/
theorem frame_counter_counts_sink_writes :
    ∀ (wo : Bool) (s : LoopState) (t : Tick) (ticks : List Tick) (t0 : ℚ),
      ((loopIter wo s t).1.frameCount
          = s.frameCount + ((loopIter wo s t).2.1.countP isSinkWrite)) ∧
      ((runLoop wo s ticks).1.frameCount
          = s.frameCount + ((runLoop wo s ticks).2).countP isSinkWrite) ∧
      (initLoopState t0).frameCount = 0 := by
  intro wo s t ticks t0
  refine ⟨?_, frameCount_runLoop wo ticks s, rfl⟩
  show (iterNext wo s t).frameCount = s.frameCount + (iterEvs wo s t).countP isSinkWrite
  rw [frameCount_iterNext, countP_sink_iterEvs]

end ScreenRec
